import Mathlib

/-!
Verification of the YARTAT chat-translation pipeline against its design
specification.  The definitions below are a shallow embedding of the Python
sources:

* `src/message_handler.py` — ordered sequencer (`process_translation_queue`,
  `handle_message`, `format_message`, the translation cache);
* `src/websocket_client.py` — connection manager (`WebSocketClient` reconnect
  state machine);
* `src/translator.py` — language decision engine (`should_translate`) and the
  translation engines (`OpenAITranslator`, `GoogleTranslator`,
  `TranslationManager.translate`).

External collaborators (the pycld2 detector, the emoji data table, HTTP
responses, translation outcomes of the worker pool, and the i18n locale
strings) are parameters of the embedded functions.
-/

set_option maxHeartbeats 1000000

namespace YARTAT

/-! ## Embedding of src/message_handler.py: data model -/

/-- `MessageItem` from message_handler.py. -/
structure MessageItem where
  msg : String
  sender_type : String
  name : String
  sequence_id : Nat
  needs_translation : Bool
deriving DecidableEq

/-- Outcome of one `executor.submit(translate_message, ...).result(timeout=TRANSLATION_TIMEOUT)`
call.  `failed` covers both an exception raised by the task and expiry of the
timeout (both surface as an exception at the `.result` call site). -/
inductive TransOutcome where
  | ok (s : String)
  | failed
deriving DecidableEq

/-- Modelled from the spec: the locale string `errors.translation_failed` lives
in the `translations/*.json` data files, which are not part of `src/`.  Per
§4.3 of the spec the placeholder is "translation failed for <text>", with the
original text substituted by `.format`. -/
def translation_failed_text (msg : String) : String :=
  "translation failed for " ++ msg

/-- `format_message` from message_handler.py.  `tlabel` is the locale string
`t "message.translation"` (locale data files are not in `src/`, so the label is
a parameter).  Python's `if translated:` is a truthiness test: both `None`
(here `none`) and the empty string fall through to the plain format. -/
def format_message (tlabel : String) (m : MessageItem) (translated : Option String) : String :=
  let base := m.sender_type ++ m.name ++ ": " ++ m.msg
  match translated with
  | some tr => if tr = "" then base ++ "\n" else base ++ tlabel ++ ": " ++ tr ++ "\n"
  | none => base ++ "\n"

/-- `translation_cache.get(key)`: the cache dict, as an association list whose
first binding for a key is the current one. -/
def cache_get (cache : List (String × String)) (k : String) : Option String :=
  (cache.find? (fun e => e.1 == k)).map (fun e => e.2)

/-- `translation_cache[key] = v`: dict assignment replaces the binding. -/
def cache_put (cache : List (String × String)) (k v : String) : List (String × String) :=
  (k, v) :: cache.eraseP (fun e => e.1 == k)

/-- The translation stage of one iteration of the `while True` loop in
`process_translation_queue` (message_handler.py lines 49–64): produce the
formatted line for `m`, the updated cache, and the updated (ghost) count of
translator invocations.

`oracle n text` is the outcome of the `(n+1)`-th submitted translation call;
indexing by the running call count lets translations of the same text complete
differently on different calls.

Faithful to the Python `translation_cache.get(key) or executor.submit(...)`:
a cached empty string is falsy, so the `or` falls through and a fresh
translation call is made.  On an exception (or timeout) the cache is not
written and the placeholder line is produced; the `output or format_message(...)`
fallback at line 64 is the `none` branch here (when no translation is needed
`output` is `None`). -/
def translate_stage (oracle : Nat → String → TransOutcome) (tlabel : String)
    (m : MessageItem) (cache : List (String × String)) (calls : Nat) :
    String × List (String × String) × Nat :=
  if m.needs_translation then
    let key := m.msg
    match cache_get cache key with
    | some s =>
      if s = "" then
        match oracle calls key with
        | .ok tr => (format_message tlabel m (some tr), cache_put cache key tr, calls + 1)
        | .failed =>
            (format_message tlabel m (some (translation_failed_text m.msg)), cache, calls + 1)
      else
        (format_message tlabel m (some s), cache_put cache key s, calls)
    | none =>
      match oracle calls key with
      | .ok tr => (format_message tlabel m (some tr), cache_put cache key tr, calls + 1)
      | .failed =>
          (format_message tlabel m (some (translation_failed_text m.msg)), cache, calls + 1)
  else
    (format_message tlabel m none, cache, calls)

/-- `next_sequence_id in pending_messages` / `pending_messages[next_sequence_id]`. -/
def pending_get (p : List (Nat × String)) (k : Nat) : Option String :=
  (p.find? (fun e => e.1 == k)).map (fun e => e.2)

/-- `pending_messages.pop(k)` / replacement of an existing binding. -/
def pending_remove (p : List (Nat × String)) (k : Nat) : List (Nat × String) :=
  p.eraseP (fun e => e.1 == k)

/-- Fuelled evaluator for the `while next_sequence_id in pending_messages:`
loop: each successful iteration removes one pending entry, so any fuel of at
least `p.length` computes the loop exactly (`drain_rec` below recovers the
unfuelled recurrence). -/
def drain_fuel : Nat → List (Nat × String) → Nat → List (Nat × String) →
    List (Nat × String) × Nat × List (Nat × String)
  | 0, p, next, out => (p, next, out)
  | fuel + 1, p, next, out =>
    match pending_get p next with
    | some line => drain_fuel fuel (pending_remove p next) (next + 1) (out ++ [(next, line)])
    | none => (p, next, out)

/-- The `while next_sequence_id in pending_messages:` loop of
`process_translation_queue` (lines 67–69): pop the contiguous run starting at
`next`, appending each popped line (tagged with the sequence id it was emitted
for) to the output queue. -/
def drain (p : List (Nat × String)) (next : Nat) (out : List (Nat × String)) :
    List (Nat × String) × Nat × List (Nat × String) :=
  drain_fuel p.length p next out

/-- The mutable state of `process_translation_queue` together with the module
globals it drives: `pending_messages`, `next_sequence_id`, the shared
`translation_cache`, the `output_queue` sink (each entry tagged with the
sequence id it was emitted for), and the ghost count of translator calls. -/
structure PipeState where
  pending_messages : List (Nat × String)
  next_sequence_id : Nat
  translation_cache : List (String × String)
  output_queue : List (Nat × String)
  calls : Nat
deriving DecidableEq

/-- State at entry of `process_translation_queue`: `pending_messages = {}`,
`next_sequence_id = 0`, empty module-level cache and output queue. -/
def init_state : PipeState := ⟨[], 0, [], [], 0⟩

/-- One iteration of the `while True` loop of `process_translation_queue` for a
dequeued `MessageItem` (lines 45–69): translation stage, store the formatted
line under its sequence id, then drain the contiguous run. -/
def process_one (oracle : Nat → String → TransOutcome) (tlabel : String)
    (st : PipeState) (m : MessageItem) : PipeState :=
  let r := translate_stage oracle tlabel m st.translation_cache st.calls
  let p := (m.sequence_id, r.1) :: pending_remove st.pending_messages m.sequence_id
  let d := drain p st.next_sequence_id st.output_queue
  { pending_messages := d.1
    next_sequence_id := d.2.1
    translation_cache := r.2.1
    output_queue := d.2.2
    calls := r.2.2 }

/-- `process_translation_queue` over a finite run of dequeued messages:
the `message_queue` is FIFO, so the loop consumes `msgs` in list order. -/
def process_translation_queue (oracle : Nat → String → TransOutcome) (tlabel : String)
    (msgs : List MessageItem) (st : PipeState) : PipeState :=
  msgs.foldl (process_one oracle tlabel) st

/-- The sequence of formatted lines the loop computes for `msgs`, threading the
cache and call count exactly as `translate_stage` does.  Proof-support
restatement of the per-message stage of `process_one`. -/
def stage_lines (oracle : Nat → String → TransOutcome) (tlabel : String) :
    List MessageItem → List (String × String) → Nat → List String
  | [], _, _ => []
  | m :: rest, cache, calls =>
    let r := translate_stage oracle tlabel m cache calls
    r.1 :: stage_lines oracle tlabel rest r.2.1 r.2.2

/-! ## Embedding of src/translator.py -/

/-- Python `str.strip()`: drop leading and trailing whitespace. -/
def py_strip (s : String) : String :=
  String.mk (((s.data.dropWhile Char.isWhitespace).reverse.dropWhile Char.isWhitespace).reverse)

/-- `detect_language` from translator.py.  `detector` is the external pycld2
call: `none` models a `pycld2.error` (or any failure extracting
`details[0]`), `some (lang, percent)` the detected language code together with
`details[0][2]`, the integer percentage.  `confidence = percent / 100.0`; the
division is exact here (rational arithmetic), and for integer percentages the
float comparison against `0.5` performed downstream agrees with the exact one.
All Chinese variants are unified to `zh` (`startswith('zh')` subsumes the
`== 'zh'` disjunct). -/
def detect_language (detector : String → Option (String × ℚ)) (text : String) : String × ℚ :=
  match detector text with
  | some r => (if "zh".data.isPrefixOf r.1.data then "zh" else r.1, r.2 / 100)
  | none => ("un", 0)

/-- `lang.split('-')[0]`: the base subtag of a locale code — the characters
before the first `'-'` (the whole string when there is none). -/
def base_lang (lang : String) : String :=
  String.mk (lang.data.takeWhile (fun c => c != '-'))

/-- `TranslationManager._is_self_message`: compares the sender tag against the
literal `"[  SELF  ]"`. -/
def is_self_message (sender_type : String) : Bool :=
  sender_type == "[  SELF  ]"

/-- `TranslationManager._is_numeric_only`:
`text.isdigit() or all(char in '0123456789' for char in text.strip())`.
`str.isdigit` is modelled over the ASCII digits (`Char.isDigit`); note the
second disjunct is vacuously true for text that strips to the empty string. -/
def is_numeric_only (text : String) : Bool :=
  (text ≠ "" && text.data.all Char.isDigit)
    || (py_strip text).data.all (fun c => ("0123456789".data.contains c))

/-- `TranslationManager._is_emoji_only`: every character is in the external
`emoji.EMOJI_DATA` table (parameter `emojiData`) or is whitespace.  Vacuously
true for the empty string, as in Python. -/
def is_emoji_only (emojiData : Char → Bool) (text : String) : Bool :=
  text.data.all (fun c => emojiData c || c.isWhitespace)

/-- `TranslationManager._is_language_detection_reliable`. -/
def is_language_detection_reliable (source_lang : String) (confidence : ℚ) : Bool :=
  source_lang ≠ "un" && (1 : ℚ) / 2 ≤ confidence

/-- `TranslationManager._is_same_base_language`. -/
def is_same_base_language (source_lang target_lang : String) : Bool :=
  base_lang source_lang == base_lang target_lang

/-- `TranslationManager.should_translate` from translator.py (lines 199–240):
rules evaluated in order, first match wins.  `target` is the configured
`TARGET_LANG`. -/
def should_translate (emojiData : Char → Bool) (detector : String → Option (String × ℚ))
    (target : String) (text : String) (sender_type : String) : Bool × String × ℚ :=
  let text := py_strip text
  if is_self_message sender_type then (false, "un", 0)
  else if is_numeric_only text then (false, "un", 0)
  else if is_emoji_only emojiData text then (false, "un", 0)
  else
    let d := detect_language detector text
    if ¬ is_language_detection_reliable d.1 d.2 then (false, d.1, d.2)
    else if is_same_base_language d.1 target then (false, d.1, d.2)
    else (true, d.1, d.2)

/-- The HTTP response seen by an engine's `translate`, as far as the code
inspects it: `none` models an exception raised anywhere inside the request
(connection error, JSON decoding, ...), `some r` a completed response with its
status code and — for the OpenAI engine — the extracted
`choices[0].message.content` (`none` when `choices` is absent or the content is
JSON null). -/
structure HttpResponse where
  status : Nat
  content : Option String
deriving DecidableEq

/-- `OpenAITranslator.translate` from translator.py (lines 58–92).
`postprocess` stands for the `re.sub(r'<think>...</think>', ...).strip()`
post-processing of a successful response (line 87), which is irrelevant to the
failure path.  A non-200 status raises, and the catch-all `except` turns every
exception into the marker string `"[OpenAI Translation Error]" ++ text`. -/
def openai_translate (postprocess : String → String) (resp : Option HttpResponse)
    (text : String) : String :=
  match resp with
  | none => "[OpenAI Translation Error]" ++ text
  | some r =>
    if r.status ≠ 200 then "[OpenAI Translation Error]" ++ text
    else
      let content := match r.content with
        | some c => if c ≠ "" then c else text
        | none => text
      let translated := if content ≠ "" then py_strip content else text
      postprocess translated

/-- Modelled from the spec: the locale string `errors.google_failed` lives in
the `translations/*.json` data files, which are not part of `src/`; per §4.3
and §7 of the spec, failure placeholders reference the failed text, so the
template is modelled as substituting the original text after a fixed notice. -/
def google_failed_text (text : String) : String :=
  "Google translation failed: " ++ text

/-- `GoogleTranslator.translate` from translator.py (lines 97–110).  `joined`
stands for `''.join(item[0] for item in data[0] if item[0])` applied to the
decoded response body of a 200 response; a non-200 status raises, and the
catch-all `except` returns the formatted `errors.google_failed` locale string. -/
def google_translate (joined : String) (resp : Option HttpResponse) (text : String) : String :=
  match resp with
  | none => google_failed_text text
  | some r =>
    if r.status ≠ 200 then google_failed_text text
    else joined

/-- Result of awaiting a concrete engine's `translate` coroutine.  `exn` models
an exception escaping the engine call (caught by the manager's `except`). -/
inductive EngineResult where
  | ok (s : String)
  | exn
deriving DecidableEq

/-- `TranslationManager.translate` from translator.py (lines 242–266),
instrumented with the number of engine invocations (second component).
`engines` is the `self.translators` dict (`none` models a `KeyError`, caught by
the `except` like every other exception, which returns
`f"[{self.current_engine} Translation Error]{text}"`). -/
def manager_translate (detector : String → Option (String × ℚ))
    (engines : String → Option (String → EngineResult))
    (current_engine target text : String) : String × Nat :=
  let d := detect_language detector text
  let source_lang := d.1
  let target_base := base_lang target
  let source_base := base_lang source_lang
  if source_base = target_base then (text, 0)
  else
    match engines current_engine with
    | some eng =>
      match eng text with
      | .ok s => (s, 1)
      | .exn => ("[" ++ current_engine ++ " Translation Error]" ++ text, 1)
    | none => ("[" ++ current_engine ++ " Translation Error]" ++ text, 0)

/-! ## Embedding of handle_message (src/message_handler.py lines 81–133) -/

/-- Decoded JSON values, the result of `json.loads` on an inbound text frame. -/
inductive Json where
  | null
  | bool (b : Bool)
  | num (n : ℤ)
  | str (s : String)
  | arr (xs : List Json)
  | obj (kvs : List (String × Json))

/-- Python truthiness of a decoded JSON value. -/
def Json.py_truthy : Json → Bool
  | .null => false
  | .bool b => b
  | .num n => n ≠ 0
  | .str s => s ≠ ""
  | .arr xs => ¬ xs.isEmpty
  | .obj kvs => ¬ kvs.isEmpty

/-- `dict.get(key)` on a decoded JSON object (decoded dicts are key-unique,
duplicate keys having been collapsed by `json.loads`). -/
def json_get (kvs : List (String × Json)) (key : String) : Option Json :=
  (kvs.find? (fun e => e.1 == key)).map (fun e => e.2)

/-- Python `str()` rendering of a decoded JSON value, used only when a
non-string `nickname` is interpolated into the formatted line; no claim
depends on the container cases, rendered here schematically. -/
def Json.py_str : Json → String
  | .null => "None"
  | .bool b => if b then "True" else "False"
  | .num n => toString n
  | .str s => s
  | .arr _ => "[...]"
  | .obj _ => "\x7b...\x7d"

/-- The i18n sender-tag and fallback strings used by `handle_message`
(`sender_types.system` / `.self` / `.others`, `message.unknown_user`); the
locale data files are not in `src/`, so they are parameters. -/
structure SenderStrings where
  system : String
  self : String
  others : String
  unknown_user : String

/-- The state `handle_message` mutates: the global `message_count` and the
FIFO `message_queue`.  The connection state is not part of this state because
`handle_message` never touches it. -/
structure HandlerState where
  message_count : Nat
  message_queue : List MessageItem
deriving DecidableEq

/-- `handle_message` from message_handler.py (lines 81–133).  `parsed` is the
result of `json.loads(message)`: `none` models a `JSONDecodeError` (frame
dropped).  `data.get` on a non-dict raises `AttributeError`, caught by the
generic `except` before the counter is touched.  A truthy non-string `content`
passes the `if not msg` check but makes `should_translate` raise
(`text.strip()` on a non-str), after the counter was already incremented.
Python's `sender_types` dict keys `""`/`True`/`False` follow dict-key
semantics, under which `1 == True` and `0 == False`; any other key misses and
the `or` falls back to the others tag, as it also does when the looked-up
locale string is falsy. -/
def handle_message (emojiData : Char → Bool) (detector : String → Option (String × ℚ))
    (target : String) (L : SenderStrings) (parsed : Option Json)
    (st : HandlerState) : HandlerState :=
  match parsed with
  | none => st
  | some data =>
    match data with
    | .obj kvs =>
      let msgVal := (json_get kvs "content").getD (.str "")
      if msgVal.py_truthy = false then st
      else
        match msgVal with
        | .str msgText =>
          let sequence_id := st.message_count
          let isSystem :=
            match json_get kvs "vlive_id" with
            | some (Json.str s) => s == ""
            | _ => false
          let isSelfVal := (json_get kvs "is_self").getD (Json.bool false)
          -- `sender_types.get(key)` where `key` is `""` when `vlive_id == ""` and
          -- the decoded `is_self` value otherwise.  Python dict-key equality makes
          -- `1`/`True` and `0`/`False` the same keys, the string `""` hits the
          -- System entry, any other hashable value misses (`.get` returns `None`
          -- and the `or` falls back to the Others tag, as it also does when the
          -- found tag is the empty string), and an unhashable value (list/dict)
          -- raises `TypeError`, caught by the generic handler — the counter was
          -- already incremented, nothing is enqueued (outer `none`).
          let looked : Option (Option String) :=
            if isSystem then some (some L.system)
            else
              match isSelfVal with
              | .bool b => some (some (if b then L.self else L.others))
              | .num n =>
                some (if n = 1 then some L.self else if n = 0 then some L.others else none)
              | .str s => some (if s = "" then some L.system else none)
              | .null => some none
              | .arr _ => none
              | .obj _ => none
          match looked with
          | none => { st with message_count := st.message_count + 1 }
          | some lookedUp =>
            let sender_type :=
              match lookedUp with
              | some tag => if tag = "" then L.others else tag
              | none => L.others
            let needs := (should_translate emojiData detector target msgText sender_type).1
            let name :=
              match json_get kvs "nickname" with
              | some j => j.py_str
              | none => L.unknown_user
            { message_count := st.message_count + 1
              message_queue := st.message_queue ++
                [⟨msgText, sender_type, name, sequence_id, needs⟩] }
        | _ => { st with message_count := st.message_count + 1 }
    | _ => st

/-! ## Embedding of src/websocket_client.py -/

/-- Which `websocket.WebSocketApp` instance `self.ws` currently holds: the one
built by `connect()` (whose `on_open` is wrapped by `_on_open_wrapper`) or one
built by `_reconnect` (whose `on_open` is the unwrapped original stored in
`_callbacks`; both have the wrapped `on_close`). -/
inductive WsKind where
  | fromConnect
  | fromReconnect
deriving DecidableEq

/-- The fields of `WebSocketClient` relevant to the reconnect protocol,
plus ghost instrumentation: `live_timers` counts `threading.Timer` objects
that have been started and neither canceled nor fired; `schedules` and
`fires` count completed `_schedule_reconnect` timer starts and timer
expirations.  `reconnect_timer` is `some delay` exactly while a started timer
is pending (`cancel()` on the stored object is modelled by dropping it: a
canceled timer never fires, and a second `cancel()` is a no-op). -/
structure WSClientState where
  reconnect_count : Nat
  max_reconnect_attempts : Nat
  reconnect_base_delay : Nat
  is_reconnecting : Bool
  connected : Bool
  normal_exit : Bool
  reconnect_timer : Option Nat
  ws : Option WsKind
  live_timers : Nat
  schedules : Nat
  fires : Nat
deriving DecidableEq

/-- `self._reconnect_timer.cancel()` guarded by `if self._reconnect_timer:`. -/
def cancel_timer (s : WSClientState) : WSClientState :=
  match s.reconnect_timer with
  | some _ => { s with reconnect_timer := none, live_timers := s.live_timers - 1 }
  | none => s

/-- `WebSocketClient._schedule_reconnect` (websocket_client.py lines 106–129):
give up once `reconnect_count >= max_reconnect_attempts`; otherwise set the
reconnecting flag, increment the counter, compute
`delay = reconnect_base_delay * 2 ** (reconnect_count - 1)` with the
incremented counter, cancel any existing timer, and start a new one. -/
def schedule_reconnect (s : WSClientState) : WSClientState :=
  if s.max_reconnect_attempts ≤ s.reconnect_count then s
  else
    let s1 := { s with is_reconnecting := true, reconnect_count := s.reconnect_count + 1 }
    let delay := s1.reconnect_base_delay * 2 ^ (s1.reconnect_count - 1)
    let s2 := cancel_timer s1
    { s2 with
      reconnect_timer := some delay
      live_timers := s2.live_timers + 1
      schedules := s2.schedules + 1 }

/-- Events observable by one `WebSocketClient` instance: socket callbacks
(`on_open`, `on_close` with its status code, `on_error`), expiry of the
scheduled reconnect timer, and an explicit `close()` call. -/
inductive WSEvent where
  | open_event
  | close_event (code : Option Nat)
  | error_event
  | timer_fire
  | close_call
deriving DecidableEq

/-- One event step of the connection manager.

* `open_event`: the app built by `connect()` runs the wrapped `on_open`
  (set `_connected`, reset `reconnect_count`, clear `is_reconnecting`); an app
  built by `_reconnect` runs the *original* `on_open` stored in `_callbacks`,
  which touches none of these fields.
* `close_event code`: the wrapped `on_close` (both apps store it wrapped)
  clears `_connected` and calls `_schedule_reconnect` only on an abnormal,
  non-reconnecting, non-normal-exit close.
* `timer_fire`: a pending timer expires and runs `_reconnect`, which replaces
  `self.ws` (when non-`None`) with a new app carrying the `_callbacks` set.
* `close_call`: `close()` sets `_normal_exit` and cancels any pending timer
  (the subsequent `self.ws.close()` surfaces later as a `close_event`). -/
def ws_step (s : WSClientState) : WSEvent → WSClientState
  | .open_event =>
    match s.ws with
    | some .fromConnect =>
        { s with connected := true, reconnect_count := 0, is_reconnecting := false }
    | some .fromReconnect => s
    | none => s
  | .close_event code =>
    match s.ws with
    | some _ =>
      let s1 := { s with connected := false }
      if !s1.is_reconnecting && !s1.normal_exit && !(code == some 1000) then
        schedule_reconnect s1
      else s1
    | none => s
  | .error_event => s
  | .timer_fire =>
    match s.reconnect_timer with
    | some _ =>
      let s1 := { s with
        reconnect_timer := none
        live_timers := s.live_timers - 1
        fires := s.fires + 1 }
      match s1.ws with
      | some _ => { s1 with ws := some .fromReconnect }
      | none => s1
    | none => s
  | .close_call =>
    cancel_timer { s with normal_exit := true }

/-- The client state right after `__init__` and `connect()`: counters zero,
flags clear, defaults `max_reconnect_attempts = 5` and
`reconnect_base_delay = 2`, and `self.ws` holding the app built by
`connect()`. -/
def ws_init : WSClientState :=
  { reconnect_count := 0, max_reconnect_attempts := 5, reconnect_base_delay := 2,
    is_reconnecting := false, connected := false, normal_exit := false,
    reconnect_timer := none, ws := some .fromConnect,
    live_timers := 0, schedules := 0, fires := 0 }

/-- Run of the connection manager over a sequence of events. -/
def ws_run (events : List WSEvent) (s : WSClientState) : WSClientState :=
  events.foldl ws_step s

/-! ## Basic lemmas about the sequencer loop -/

theorem pending_get_nil (k : Nat) : pending_get [] k = none := rfl

theorem pending_remove_length_lt {p : List (Nat × String)} {k : Nat} {v : String}
    (h : pending_get p k = some v) : (pending_remove p k).length < p.length := by
  unfold pending_get at h
  unfold pending_remove
  rcases Option.map_eq_some'.1 h with ⟨e, he, _⟩
  have hmem := List.mem_of_find?_eq_some he
  have hpred := List.find?_some he
  have := @List.length_eraseP_add_one _ (fun e => e.1 == k) p e hmem hpred
  omega

theorem drain_fuel_eq_of_le :
    ∀ (f₁ : Nat) (f₂ : Nat) (p : List (Nat × String)) (next : Nat) (out : List (Nat × String)),
      p.length ≤ f₁ → p.length ≤ f₂ → drain_fuel f₁ p next out = drain_fuel f₂ p next out := by
  intro f₁
  induction f₁ with
  | zero =>
    intro f₂ p next out h1 _
    have hp : p = [] := List.eq_nil_of_length_eq_zero (Nat.le_zero.1 h1)
    subst hp
    cases f₂ with
    | zero => rfl
    | succ f₂ => simp [drain_fuel, pending_get_nil]
  | succ f₁ ih =>
    intro f₂ p next out h1 h2
    cases f₂ with
    | zero =>
      have hp : p = [] := List.eq_nil_of_length_eq_zero (Nat.le_zero.1 h2)
      subst hp
      simp [drain_fuel, pending_get_nil]
    | succ f₂ =>
      show drain_fuel (f₁ + 1) p next out = drain_fuel (f₂ + 1) p next out
      unfold drain_fuel
      cases h : pending_get p next with
      | none => rfl
      | some line =>
        have hlt := pending_remove_length_lt h
        exact ih f₂ (pending_remove p next) (next + 1) (out ++ [(next, line)])
          (by omega) (by omega)

/-- The fuelled loop satisfies the unfuelled recurrence of the
`while next_sequence_id in pending_messages:` loop. -/
theorem drain_rec (p : List (Nat × String)) (next : Nat) (out : List (Nat × String)) :
    drain p next out =
      match pending_get p next with
      | some line => drain (pending_remove p next) (next + 1) (out ++ [(next, line)])
      | none => (p, next, out) := by
  cases h : pending_get p next with
  | none =>
    cases p with
    | nil => rfl
    | cons x xs =>
      show (match pending_get (x :: xs) next with
            | some l => drain_fuel xs.length (pending_remove (x :: xs) next) (next + 1)
                (out ++ [(next, l)])
            | none => (x :: xs, next, out)) = (x :: xs, next, out)
      rw [h]
  | some line =>
    cases p with
    | nil => simp [pending_get_nil] at h
    | cons x xs =>
      have hlt := pending_remove_length_lt h
      have hle : (pending_remove (x :: xs) next).length ≤ xs.length := by
        simp only [List.length_cons] at hlt
        omega
      have step : drain (x :: xs) next out
          = drain_fuel xs.length (pending_remove (x :: xs) next) (next + 1)
            (out ++ [(next, line)]) := by
        show (match pending_get (x :: xs) next with
              | some l => drain_fuel xs.length (pending_remove (x :: xs) next) (next + 1)
                  (out ++ [(next, l)])
              | none => (x :: xs, next, out)) = _
        rw [h]
      rw [step]
      exact drain_fuel_eq_of_le _ _ _ _ _ hle (Nat.le_refl _)

theorem drain_nil (next : Nat) (out : List (Nat × String)) :
    drain [] next out = ([], next, out) := rfl

theorem pending_get_single_self (n : Nat) (line : String) :
    pending_get [(n, line)] n = some line := by
  simp [pending_get, List.find?]

theorem pending_remove_single_self (n : Nat) (line : String) :
    pending_remove [(n, line)] n = [] := by
  simp [pending_remove, List.eraseP_cons]

theorem drain_single (n : Nat) (line : String) (out : List (Nat × String)) :
    drain [(n, line)] n out = ([], n + 1, out ++ [(n, line)]) := by
  rw [drain_rec, pending_get_single_self]
  simp only [pending_remove_single_self, drain_nil]

/-! ## Connection-manager lemmas -/

theorem ws_run_append (a b : List WSEvent) (s : WSClientState) :
    ws_run (a ++ b) s = ws_run b (ws_run a s) := by
  unfold ws_run
  exact List.foldl_append _ _ _ _

/-- Each started timer is the only live one: the step function preserves
`live_timers = 1` exactly while a timer is pending. -/
theorem ws_step_live_timers (s : WSClientState) (e : WSEvent)
    (h : s.live_timers = if s.reconnect_timer.isSome then 1 else 0) :
    (ws_step s e).live_timers = if (ws_step s e).reconnect_timer.isSome then 1 else 0 := by
  cases e with
  | open_event =>
    rcases hw : s.ws with _ | k
    · simpa [ws_step, hw] using h
    · cases k <;> simpa [ws_step, hw] using h
  | close_event code =>
    rcases hw : s.ws with _ | k
    · simpa [ws_step, hw] using h
    · by_cases hguard : (!s.is_reconnecting && !s.normal_exit && !(code == some 1000)) = true
      · simp only [ws_step, hw, hguard, if_pos]
        unfold schedule_reconnect
        by_cases hmax : s.max_reconnect_attempts ≤ s.reconnect_count
        · simpa [hmax] using h
        · rw [if_neg hmax]
          rcases ht : s.reconnect_timer with _ | d <;> simp_all [cancel_timer]
      · simp only [ws_step, hw]
        rw [if_neg (by simpa using hguard)]
        simpa using h
  | error_event => simpa [ws_step] using h
  | timer_fire =>
    rcases ht : s.reconnect_timer with _ | d
    · simpa [ws_step, ht] using h
    · rcases hw : s.ws with _ | k <;> simp_all [ws_step, ht, hw]
  | close_call =>
    rcases ht : s.reconnect_timer with _ | d <;> simp_all [ws_step, cancel_timer, ht]

theorem ws_run_live_timers (events : List WSEvent) :
    ∀ s : WSClientState, s.live_timers = (if s.reconnect_timer.isSome then 1 else 0) →
      (ws_run events s).live_timers
        = if (ws_run events s).reconnect_timer.isSome then 1 else 0 := by
  induction events with
  | nil => intro s h; exact h
  | cons e rest ih =>
    intro s h
    exact ih (ws_step s e) (ws_step_live_timers s e h)

/-- After `close()` the normal-exit flag is set and no timer is pending; every
subsequent event preserves this and neither schedules nor fires a reconnect. -/
theorem ws_step_after_close (s : WSClientState) (e : WSEvent)
    (h1 : s.normal_exit = true) (h2 : s.reconnect_timer = none) :
    (ws_step s e).normal_exit = true ∧ (ws_step s e).reconnect_timer = none ∧
      (ws_step s e).schedules = s.schedules ∧ (ws_step s e).fires = s.fires := by
  cases e with
  | open_event =>
    rcases hw : s.ws with _ | k
    · simp [ws_step, hw, h1, h2]
    · cases k <;> simp [ws_step, hw, h1, h2]
  | close_event code =>
    rcases hw : s.ws with _ | k
    · simp [ws_step, hw, h1, h2]
    · simp [ws_step, hw, h1, h2]
  | error_event => simp [ws_step, h1, h2]
  | timer_fire => simp [ws_step, h2, h1]
  | close_call => simp [ws_step, cancel_timer, h1, h2]

theorem ws_run_after_close (post : List WSEvent) :
    ∀ s : WSClientState, s.normal_exit = true → s.reconnect_timer = none →
      (ws_run post s).normal_exit = true ∧ (ws_run post s).reconnect_timer = none ∧
        (ws_run post s).schedules = s.schedules ∧ (ws_run post s).fires = s.fires := by
  induction post with
  | nil => intro s h1 h2; exact ⟨h1, h2, rfl, rfl⟩
  | cons e rest ih =>
    intro s h1 h2
    obtain ⟨k1, k2, k3, k4⟩ := ws_step_after_close s e h1 h2
    obtain ⟨m1, m2, m3, m4⟩ := ih (ws_step s e) k1 k2
    exact ⟨m1, m2, m3.trans k3, m4.trans k4⟩

theorem ws_step_close_call (s : WSClientState) :
    (ws_step s .close_call).normal_exit = true ∧
      (ws_step s .close_call).reconnect_timer = none := by
  rcases ht : s.reconnect_timer with _ | d <;> simp [ws_step, cancel_timer, ht]

/-! ## Claims C4, C5, C6 -/

/-- C4: successive reconnect schedules from a fresh connection compute delays
`reconnect_base_delay * 2 ^ (attempt - 1)` — with the defaults, 2 s, 4 s, 8 s,
16 s and 32 s for attempts 1 through 5 — and once `reconnect_count` has
reached `max_reconnect_attempts` (default 5) `_schedule_reconnect` gives up
without starting any further timer. -/
theorem C4_backoff_schedule :
    (∀ s : WSClientState, s.max_reconnect_attempts ≤ s.reconnect_count →
        schedule_reconnect s = s) ∧
    (∀ s : WSClientState, s.reconnect_count < s.max_reconnect_attempts →
        (schedule_reconnect s).reconnect_timer
            = some (s.reconnect_base_delay * 2 ^ s.reconnect_count) ∧
          (schedule_reconnect s).reconnect_count = s.reconnect_count + 1) ∧
    ((schedule_reconnect^[1] ws_init).reconnect_timer = some 2 ∧
      (schedule_reconnect^[2] ws_init).reconnect_timer = some 4 ∧
      (schedule_reconnect^[3] ws_init).reconnect_timer = some 8 ∧
      (schedule_reconnect^[4] ws_init).reconnect_timer = some 16 ∧
      (schedule_reconnect^[5] ws_init).reconnect_timer = some 32 ∧
      (schedule_reconnect^[5] ws_init).reconnect_count = 5 ∧
      schedule_reconnect (schedule_reconnect^[5] ws_init) = schedule_reconnect^[5] ws_init) := by
  refine ⟨?_, ?_, by decide⟩
  · intro s h
    unfold schedule_reconnect
    rw [if_pos h]
  · intro s h
    unfold schedule_reconnect
    rw [if_neg (by omega)]
    rcases ht : s.reconnect_timer with _ | d <;> simp [cancel_timer, ht]

/-- Witness for C4 at concrete states: the saturated state is left unchanged,
and a fresh client's first schedule starts a 2-second timer with attempt 1. -/
theorem C4_backoff_schedule_witness :
    schedule_reconnect { ws_init with reconnect_count := 5 }
        = { ws_init with reconnect_count := 5 } ∧
      (schedule_reconnect ws_init).reconnect_timer = some (2 * 2 ^ 0) ∧
      (schedule_reconnect ws_init).reconnect_count = 0 + 1 :=
  ⟨C4_backoff_schedule.1 _ (by decide), (C4_backoff_schedule.2.1 ws_init (by decide)).1,
    (C4_backoff_schedule.2.1 ws_init (by decide)).2⟩

/-- C5 (code bug): a connection established by the scheduled reconnect does
*not* reset the attempt counter.  `_reconnect` wires the new socket's
`on_open` to the unwrapped callback stored in `_callbacks` (websocket_client.py
line 141), so after abnormal close 1006 → timer fires → new socket opens, the
client still has `reconnect_count = 1`, `is_reconnecting = True` — and
`_connected = False`, contradicting `is_connected`'s own contract. -/
theorem C5_reconnected_open_skips_reset :
    (ws_run [WSEvent.close_event (some 1006), WSEvent.timer_fire, WSEvent.open_event]
        ws_init).reconnect_count = 1 ∧
      (ws_run [WSEvent.close_event (some 1006), WSEvent.timer_fire, WSEvent.open_event]
          ws_init).is_reconnecting = true ∧
      (ws_run [WSEvent.close_event (some 1006), WSEvent.timer_fire, WSEvent.open_event]
          ws_init).connected = false := by
  decide

/-- C6: in every event run of one client, at most one reconnect timer is
pending (live, started-and-not-canceled/fired), and an explicit `close()` sets
the normal-exit flag and cancels any pending timer, after which no reconnect
is ever scheduled (`schedules` frozen) or fired (`fires` frozen) and no timer
is pending. -/
theorem C6_single_reconnect_timer_and_close_cancels :
    (∀ events : List WSEvent, (ws_run events ws_init).live_timers ≤ 1) ∧
    (∀ pre post : List WSEvent,
      (ws_run (pre ++ [WSEvent.close_call]) ws_init).normal_exit = true ∧
      (ws_run (pre ++ [WSEvent.close_call]) ws_init).reconnect_timer = none ∧
      (ws_run (pre ++ [WSEvent.close_call] ++ post) ws_init).schedules
          = (ws_run (pre ++ [WSEvent.close_call]) ws_init).schedules ∧
      (ws_run (pre ++ [WSEvent.close_call] ++ post) ws_init).fires
          = (ws_run (pre ++ [WSEvent.close_call]) ws_init).fires ∧
      (ws_run (pre ++ [WSEvent.close_call] ++ post) ws_init).reconnect_timer = none) := by
  constructor
  · intro events
    have h := ws_run_live_timers events ws_init (by decide)
    rw [h]
    split <;> omega
  · intro pre post
    have hsplit : pre ++ [WSEvent.close_call] ++ post
        = (pre ++ [WSEvent.close_call]) ++ post := by simp
    set s := ws_run (pre ++ [WSEvent.close_call]) ws_init with hs
    have hclose : s.normal_exit = true ∧ s.reconnect_timer = none := by
      rw [hs, ws_run_append]
      exact ws_step_close_call (ws_run pre ws_init)
    obtain ⟨m1, m2, m3, m4⟩ := ws_run_after_close post s hclose.1 hclose.2
    rw [hsplit, ws_run_append]
    exact ⟨hclose.1, hclose.2, m3, m4, m2⟩

/-! ## Claim C7: decision-rule order of should_translate -/

/-- C7: `should_translate` evaluates its rules in order, first match winning:
a Self-classified sender is never translated; digits-only text from a non-Self
sender is never translated; and when no earlier rule fires, a reliably
detected language (`lang ≠ "un"`, confidence ≥ 0.5) whose base subtag differs
from the target's yields decision `true` with the detected pair. -/
theorem C7_decision_rule_order :
    (∀ (e : Char → Bool) (d : String → Option (String × ℚ)) (target text sender : String),
        is_self_message sender = true →
        should_translate e d target text sender = (false, "un", 0)) ∧
    (∀ (e : Char → Bool) (d : String → Option (String × ℚ)) (target text sender : String),
        is_self_message sender = false → is_numeric_only (py_strip text) = true →
        should_translate e d target text sender = (false, "un", 0)) ∧
    (∀ (e : Char → Bool) (d : String → Option (String × ℚ)) (target text sender : String),
        is_self_message sender = false →
        is_numeric_only (py_strip text) = false →
        is_emoji_only e (py_strip text) = false →
        (detect_language d (py_strip text)).1 ≠ "un" →
        (1 : ℚ) / 2 ≤ (detect_language d (py_strip text)).2 →
        base_lang (detect_language d (py_strip text)).1 ≠ base_lang target →
        should_translate e d target text sender
          = (true, (detect_language d (py_strip text)).1, (detect_language d (py_strip text)).2)) := by
  refine ⟨?_, ?_, ?_⟩
  · intro e d target text sender h
    simp [should_translate, h]
  · intro e d target text sender h1 h2
    simp [should_translate, h1, h2]
  · intro e d target text sender h1 h2 h3 h4 h5 h6
    simp [should_translate, h1, h2, h3, is_language_detection_reliable, h4,
      is_same_base_language, h6]
    linarith

/-- Witness for C7 at the spec's own probes: `"hello"` from Self, `"12345"`
from Other, and Japanese text from Other detected as `ja` at confidence
0.99 against target `en-US`. -/
theorem C7_decision_rule_order_witness :
    should_translate (fun _ => false) (fun _ => some ("ja", 99)) "en-US" "hello"
        "[  SELF  ]" = (false, "un", 0) ∧
    should_translate (fun _ => false) (fun _ => some ("ja", 99)) "en-US" "12345"
        "[ OTHERS ]" = (false, "un", 0) ∧
    should_translate (fun _ => false) (fun _ => some ("ja", 99)) "en-US" "こんにちは"
        "[ OTHERS ]"
      = (true, (detect_language (fun _ => some ("ja", 99)) (py_strip "こんにちは")).1,
          (detect_language (fun _ => some ("ja", 99)) (py_strip "こんにちは")).2) :=
  ⟨C7_decision_rule_order.1 _ _ _ _ _ (by decide),
    C7_decision_rule_order.2.1 _ _ _ _ _ (by decide) (by decide),
    C7_decision_rule_order.2.2 _ _ _ _ _ (by decide) (by decide) (by decide) (by decide)
      (by show (1 : ℚ) / 2 ≤ 99 / 100; norm_num) (by decide)⟩

/-! ## Claim C8: malformed / contentless frames are dropped without effect -/

/-- C8: a frame that is not valid JSON, or whose decoded `content` is absent
or empty (or that decodes to a non-object, where `data.get` raises and the
generic handler drops the frame), leaves `handle_message`'s state — the
message counter and the queue — completely unchanged. -/
theorem C8_invalid_frames_leave_state_unchanged :
    (∀ (e : Char → Bool) (d : String → Option (String × ℚ)) (target : String)
        (L : SenderStrings) (st : HandlerState),
        handle_message e d target L none st = st) ∧
    (∀ (e : Char → Bool) (d : String → Option (String × ℚ)) (target : String)
        (L : SenderStrings) (st : HandlerState) (kvs : List (String × Json)),
        json_get kvs "content" = none →
        handle_message e d target L (some (.obj kvs)) st = st) ∧
    (∀ (e : Char → Bool) (d : String → Option (String × ℚ)) (target : String)
        (L : SenderStrings) (st : HandlerState) (kvs : List (String × Json)),
        json_get kvs "content" = some (Json.str "") →
        handle_message e d target L (some (.obj kvs)) st = st) ∧
    (∀ (e : Char → Bool) (d : String → Option (String × ℚ)) (target : String)
        (L : SenderStrings) (st : HandlerState) (data : Json),
        (∀ kvs, data ≠ Json.obj kvs) →
        handle_message e d target L (some data) st = st) := by
  refine ⟨fun _ _ _ _ _ => rfl, ?_, ?_, ?_⟩
  · intro e d target L st kvs h
    simp [handle_message, h, Json.py_truthy]
  · intro e d target L st kvs h
    simp [handle_message, h, Json.py_truthy]
  · intro e d target L st data h
    cases data with
    | obj kvs => exact (h kvs rfl).elim
    | null => rfl
    | bool b => rfl
    | num n => rfl
    | str s => rfl
    | arr xs => rfl

/-- Witness for C8 at concrete frames: an unparsable frame, an object without
`content`, an object with empty `content`, and a JSON array. -/
theorem C8_invalid_frames_witness :
    handle_message (fun _ => false) (fun _ => none) "en-US" ⟨"[ SYSTEM ]", "[  SELF  ]",
        "[ OTHERS ]", "unknown"⟩ none ⟨7, []⟩ = ⟨7, []⟩ ∧
    handle_message (fun _ => false) (fun _ => none) "en-US" ⟨"[ SYSTEM ]", "[  SELF  ]",
        "[ OTHERS ]", "unknown"⟩ (some (.obj [("nickname", .str "a")])) ⟨7, []⟩ = ⟨7, []⟩ ∧
    handle_message (fun _ => false) (fun _ => none) "en-US" ⟨"[ SYSTEM ]", "[  SELF  ]",
        "[ OTHERS ]", "unknown"⟩ (some (.obj [("content", .str "")])) ⟨7, []⟩ = ⟨7, []⟩ ∧
    handle_message (fun _ => false) (fun _ => none) "en-US" ⟨"[ SYSTEM ]", "[  SELF  ]",
        "[ OTHERS ]", "unknown"⟩ (some (.arr [.num 1])) ⟨7, []⟩ = ⟨7, []⟩ :=
  ⟨C8_invalid_frames_leave_state_unchanged.1 _ _ _ _ _,
    C8_invalid_frames_leave_state_unchanged.2.1 _ _ _ _ _ _ rfl,
    C8_invalid_frames_leave_state_unchanged.2.2.1 _ _ _ _ _ _ rfl,
    C8_invalid_frames_leave_state_unchanged.2.2.2 _ _ _ _ _ _ (fun kvs h => by cases h)⟩

/-! ## Claim C10: totality of TranslationManager.translate -/

/-- C10: `TranslationManager.translate` always returns a string — internal
failures (a raising engine, an unknown engine key) are absorbed by its
catch-all `except`, which returns the `f"[{engine} Translation Error]{text}"`
marker — and whenever the detected source language's base subtag equals the
target's it returns the original text unchanged with no engine invocation. -/
theorem C10_manager_translate_total_and_same_base :
    (∀ (detector : String → Option (String × ℚ))
        (engines : String → Option (String → EngineResult)) (cur target text : String),
        base_lang (detect_language detector text).1 = base_lang target →
        manager_translate detector engines cur target text = (text, 0)) ∧
    (∀ (detector : String → Option (String × ℚ))
        (engines : String → Option (String → EngineResult)) (cur target text : String)
        (eng : String → EngineResult),
        engines cur = some eng → eng text = .exn →
        base_lang (detect_language detector text).1 ≠ base_lang target →
        manager_translate detector engines cur target text
          = ("[" ++ cur ++ " Translation Error]" ++ text, 1)) ∧
    (∀ (detector : String → Option (String × ℚ))
        (engines : String → Option (String → EngineResult)) (cur target text : String),
        engines cur = none →
        base_lang (detect_language detector text).1 ≠ base_lang target →
        manager_translate detector engines cur target text
          = ("[" ++ cur ++ " Translation Error]" ++ text, 0)) := by
  refine ⟨?_, ?_, ?_⟩
  · intro detector engines cur target text h
    simp [manager_translate, h]
  · intro detector engines cur target text eng h1 h2 h3
    simp [manager_translate, h1, h2, h3]
  · intro detector engines cur target text h1 h2
    simp [manager_translate, h1, h2]

/-- Witness for C10: an English detection against target `en-US` returns the
text untouched with no engine call; a Japanese detection with a raising
engine, and with a missing engine key, returns the error marker. -/
theorem C10_manager_translate_witness :
    manager_translate (fun _ => some ("en", 95)) (fun _ => none) "google" "en-US" "hi"
        = ("hi", 0) ∧
    manager_translate (fun _ => some ("ja", 95)) (fun _ => some (fun _ => .exn)) "google"
        "en-US" "やあ" = ("[" ++ "google" ++ " Translation Error]" ++ "やあ", 1) ∧
    manager_translate (fun _ => some ("ja", 95)) (fun _ => none) "deepl" "en-US" "やあ"
        = ("[" ++ "deepl" ++ " Translation Error]" ++ "やあ", 0) :=
  ⟨C10_manager_translate_total_and_same_base.1 _ _ _ _ _ (by decide),
    C10_manager_translate_total_and_same_base.2.1 _ _ _ _ _ _ rfl rfl (by decide),
    C10_manager_translate_total_and_same_base.2.2 _ _ _ _ _ rfl (by decide)⟩

/-! ## Cache behaviour of the translation stage -/

theorem string_append_ne_empty (a b : String) (ha : a ≠ "") : a ++ b ≠ "" := by
  intro h
  apply ha
  have hd := congrArg String.data h
  rw [String.data_append] at hd
  exact String.ext (List.append_eq_nil.1 hd).1

theorem cache_get_put_self (cache : List (String × String)) (k v : String) :
    cache_get (cache_put cache k v) k = some v := by
  simp [cache_get, cache_put, List.find?]

theorem translate_stage_hit (oracle : Nat → String → TransOutcome) (tlabel : String)
    (m : MessageItem) (cache : List (String × String)) (calls : Nat) (s : String)
    (hn : m.needs_translation = true) (h : cache_get cache m.msg = some s) (hs : s ≠ "") :
    translate_stage oracle tlabel m cache calls
      = (format_message tlabel m (some s), cache_put cache m.msg s, calls) := by
  simp [translate_stage, hn, h, hs]

theorem translate_stage_miss_ok (oracle : Nat → String → TransOutcome) (tlabel : String)
    (m : MessageItem) (cache : List (String × String)) (calls : Nat) (tr : String)
    (hn : m.needs_translation = true) (h : cache_get cache m.msg = none)
    (ho : oracle calls m.msg = .ok tr) :
    translate_stage oracle tlabel m cache calls
      = (format_message tlabel m (some tr), cache_put cache m.msg tr, calls + 1) := by
  simp [translate_stage, hn, h, ho]

theorem translate_stage_miss_failed (oracle : Nat → String → TransOutcome) (tlabel : String)
    (m : MessageItem) (cache : List (String × String)) (calls : Nat)
    (hn : m.needs_translation = true) (h : cache_get cache m.msg = none)
    (ho : oracle calls m.msg = .failed) :
    translate_stage oracle tlabel m cache calls
      = (format_message tlabel m (some (translation_failed_text m.msg)), cache, calls + 1) := by
  simp [translate_stage, hn, h, ho]

/-- After one message with text `t` is translated successfully to a non-empty
`s`, a second message with the same text is served from the cache: no further
translator call, and its line carries the cached `s`. -/
theorem cache_reuse_lemma (oracle : Nat → String → TransOutcome) (tlabel : String)
    (st : PipeState) (m1 m2 : MessageItem) (t s : String)
    (h1 : m1.msg = t) (h2 : m2.msg = t)
    (hn1 : m1.needs_translation = true) (hn2 : m2.needs_translation = true)
    (hmiss : cache_get st.translation_cache t = none)
    (hok : oracle st.calls t = .ok s) (hs : s ≠ "") :
    (process_one oracle tlabel st m1).calls = st.calls + 1 ∧
    cache_get (process_one oracle tlabel st m1).translation_cache t = some s ∧
    (process_one oracle tlabel (process_one oracle tlabel st m1) m2).calls
      = (process_one oracle tlabel st m1).calls ∧
    (translate_stage oracle tlabel m2
        (process_one oracle tlabel st m1).translation_cache
        (process_one oracle tlabel st m1).calls).1
      = format_message tlabel m2 (some s) := by
  have e1 : (process_one oracle tlabel st m1).translation_cache
      = (translate_stage oracle tlabel m1 st.translation_cache st.calls).2.1 := rfl
  have e2 : (process_one oracle tlabel st m1).calls
      = (translate_stage oracle tlabel m1 st.translation_cache st.calls).2.2 := rfl
  have stage1 := translate_stage_miss_ok oracle tlabel m1 st.translation_cache st.calls s
    hn1 (h1 ▸ hmiss) (h1 ▸ hok)
  have hc1 : (process_one oracle tlabel st m1).translation_cache
      = cache_put st.translation_cache t s := by rw [e1, stage1, h1]
  have hk1 : (process_one oracle tlabel st m1).calls = st.calls + 1 := by rw [e2, stage1]
  have hget : cache_get (process_one oracle tlabel st m1).translation_cache t = some s := by
    rw [hc1]; exact cache_get_put_self st.translation_cache t s
  have stage2 := translate_stage_hit oracle tlabel m2
    (process_one oracle tlabel st m1).translation_cache
    (process_one oracle tlabel st m1).calls s hn2 (h2 ▸ hget) hs
  refine ⟨hk1, hget, ?_, by rw [stage2]⟩
  have e3 : (process_one oracle tlabel (process_one oracle tlabel st m1) m2).calls
      = (translate_stage oracle tlabel m2
          (process_one oracle tlabel st m1).translation_cache
          (process_one oracle tlabel st m1).calls).2.2 := rfl
  rw [e3, stage2]

/-! ## Claim C2 (corrected) -/

/-- C2 counterexample: the claim fails when the first translation succeeds
with the *empty* string.  `translation_cache.get(key) or executor.submit(...)`
treats the cached `""` as falsy, so the second identical message triggers a
second translator call: two calls happen although the first succeeded. -/
theorem C2_counterexample_empty_translation :
    (process_one (fun _ _ => TransOutcome.ok "") "" init_state
        ⟨"hi", "[ OTHERS ]", "a", 0, true⟩).calls = 1 ∧
    (process_one (fun _ _ => TransOutcome.ok "") ""
        (process_one (fun _ _ => TransOutcome.ok "") "" init_state
          ⟨"hi", "[ OTHERS ]", "a", 0, true⟩)
        ⟨"hi", "[ OTHERS ]", "b", 1, true⟩).calls = 2 := by
  decide

/-- C2 (amended): if the first translation of text `t` succeeded *with a
non-empty result*, a second message carrying exactly `t` performs no second
translator call and uses the cached translated value.  (The non-emptiness
proviso is forced by Python truthiness in
`translation_cache.get(key) or executor.submit(...)`.) -/
theorem C2_cache_idempotent_nonempty (oracle : Nat → String → TransOutcome) (tlabel : String)
    (st : PipeState) (m1 m2 : MessageItem) (t s : String)
    (h1 : m1.msg = t) (h2 : m2.msg = t)
    (hn1 : m1.needs_translation = true) (hn2 : m2.needs_translation = true)
    (hmiss : cache_get st.translation_cache t = none)
    (hok : oracle st.calls t = .ok s) (hs : s ≠ "") :
    (process_one oracle tlabel st m1).calls = st.calls + 1 ∧
    cache_get (process_one oracle tlabel st m1).translation_cache t = some s ∧
    (process_one oracle tlabel (process_one oracle tlabel st m1) m2).calls
      = (process_one oracle tlabel st m1).calls ∧
    (translate_stage oracle tlabel m2
        (process_one oracle tlabel st m1).translation_cache
        (process_one oracle tlabel st m1).calls).1
      = format_message tlabel m2 (some s) :=
  cache_reuse_lemma oracle tlabel st m1 m2 t s h1 h2 hn1 hn2 hmiss hok hs

/-- Witness for the amended C2: translating `"hola"` to `"hello"` once, the
second identical message is served from the cache with no second call. -/
theorem C2_cache_idempotent_nonempty_witness :
    (process_one (fun _ _ => TransOutcome.ok "hello") "" init_state
        ⟨"hola", "[ OTHERS ]", "a", 0, true⟩).calls = 0 + 1 ∧
    cache_get (process_one (fun _ _ => TransOutcome.ok "hello") "" init_state
        ⟨"hola", "[ OTHERS ]", "a", 0, true⟩).translation_cache "hola" = some "hello" ∧
    (process_one (fun _ _ => TransOutcome.ok "hello") ""
        (process_one (fun _ _ => TransOutcome.ok "hello") "" init_state
          ⟨"hola", "[ OTHERS ]", "a", 0, true⟩)
        ⟨"hola", "[ OTHERS ]", "b", 1, true⟩).calls
      = (process_one (fun _ _ => TransOutcome.ok "hello") "" init_state
          ⟨"hola", "[ OTHERS ]", "a", 0, true⟩).calls ∧
    (translate_stage (fun _ _ => TransOutcome.ok "hello") ""
        ⟨"hola", "[ OTHERS ]", "b", 1, true⟩
        (process_one (fun _ _ => TransOutcome.ok "hello") "" init_state
          ⟨"hola", "[ OTHERS ]", "a", 0, true⟩).translation_cache
        (process_one (fun _ _ => TransOutcome.ok "hello") "" init_state
          ⟨"hola", "[ OTHERS ]", "a", 0, true⟩).calls).1
      = format_message "" ⟨"hola", "[ OTHERS ]", "b", 1, true⟩ (some "hello") :=
  C2_cache_idempotent_nonempty (fun _ _ => TransOutcome.ok "hello") "" init_state
    ⟨"hola", "[ OTHERS ]", "a", 0, true⟩ ⟨"hola", "[ OTHERS ]", "b", 1, true⟩ "hola" "hello"
    rfl rfl rfl rfl rfl rfl (by decide)

/-! ## Claim C9 -/

/-- C9: a failing engine network call does not raise — it returns an
error-marker string containing the original text ("[OpenAI Translation
Error]<text>" for the OpenAI engine, the formatted `errors.google_failed`
locale string for the Google engine) — and the sequencer treats that marker as
a successful translation: it caches it, and every later message with identical
text reuses the marker with no further translator call. -/
theorem C9_engine_failure_marker_cached :
    (∀ (pp : String → String) (text : String),
        openai_translate pp none text = "[OpenAI Translation Error]" ++ text) ∧
    (∀ (pp : String → String) (r : HttpResponse) (text : String), r.status ≠ 200 →
        openai_translate pp (some r) text = "[OpenAI Translation Error]" ++ text) ∧
    (∀ (joined text : String),
        google_translate joined none text = "Google translation failed: " ++ text) ∧
    (∀ (joined : String) (r : HttpResponse) (text : String), r.status ≠ 200 →
        google_translate joined (some r) text = "Google translation failed: " ++ text) ∧
    (∀ (tlabel : String) (st : PipeState) (t : String) (m1 m2 : MessageItem),
        m1.msg = t → m2.msg = t →
        m1.needs_translation = true → m2.needs_translation = true →
        cache_get st.translation_cache t = none →
        (process_one (fun _ s2 => .ok (openai_translate id none s2)) tlabel st m1).calls
            = st.calls + 1 ∧
        cache_get (process_one (fun _ s2 => .ok (openai_translate id none s2)) tlabel
              st m1).translation_cache t
            = some ("[OpenAI Translation Error]" ++ t) ∧
        (process_one (fun _ s2 => .ok (openai_translate id none s2)) tlabel
            (process_one (fun _ s2 => .ok (openai_translate id none s2)) tlabel st m1)
            m2).calls
          = (process_one (fun _ s2 => .ok (openai_translate id none s2)) tlabel st m1).calls ∧
        (translate_stage (fun _ s2 => .ok (openai_translate id none s2)) tlabel m2
            (process_one (fun _ s2 => .ok (openai_translate id none s2)) tlabel
              st m1).translation_cache
            (process_one (fun _ s2 => .ok (openai_translate id none s2)) tlabel
              st m1).calls).1
          = format_message tlabel m2 (some ("[OpenAI Translation Error]" ++ t))) := by
  refine ⟨fun _ _ => rfl, ?_, fun _ _ => rfl, ?_, ?_⟩
  · intro pp r text h
    simp [openai_translate, h]
  · intro joined r text h
    simp [google_translate, google_failed_text, h]
  · intro tlabel st t m1 m2 h1 h2 hn1 hn2 hmiss
    exact cache_reuse_lemma _ tlabel st m1 m2 t ("[OpenAI Translation Error]" ++ t)
      h1 h2 hn1 hn2 hmiss rfl
      (string_append_ne_empty _ _ (by decide))

/-- Witness for C9: a 500 response from both engines at the text `"ciao"`, and
the cached-marker behaviour for two `"ciao"` messages from the initial state. -/
theorem C9_engine_failure_marker_cached_witness :
    openai_translate id (some ⟨500, none⟩) "ciao" = "[OpenAI Translation Error]" ++ "ciao" ∧
    google_translate "" (some ⟨500, none⟩) "ciao" = "Google translation failed: " ++ "ciao" ∧
    cache_get (process_one (fun _ s2 => .ok (openai_translate id none s2)) "" init_state
        ⟨"ciao", "[ OTHERS ]", "a", 0, true⟩).translation_cache "ciao"
      = some ("[OpenAI Translation Error]" ++ "ciao") :=
  ⟨C9_engine_failure_marker_cached.2.1 id ⟨500, none⟩ "ciao" (by decide),
    C9_engine_failure_marker_cached.2.2.2.1 "" ⟨500, none⟩ "ciao" (by decide),
    (C9_engine_failure_marker_cached.2.2.2.2 "" init_state "ciao"
        ⟨"ciao", "[ OTHERS ]", "a", 0, true⟩ ⟨"ciao", "[ OTHERS ]", "b", 1, true⟩
        rfl rfl rfl rfl rfl).2.1⟩

/-! ## Ordered emission (claims C1, C3) -/

/-- Every line the translation stage produces is a `format_message` of its
message. -/
theorem translate_stage_line (oracle : Nat → String → TransOutcome) (tlabel : String)
    (m : MessageItem) (cache : List (String × String)) (calls : Nat) :
    ∃ tr, (translate_stage oracle tlabel m cache calls).1 = format_message tlabel m tr := by
  rcases hn : m.needs_translation with _ | _
  · exact ⟨none, by simp [translate_stage, hn]⟩
  · rcases hc : cache_get cache m.msg with _ | s
    · rcases ho : oracle calls m.msg with s2 | _
      · exact ⟨some s2, by simp [translate_stage, hn, hc, ho]⟩
      · exact ⟨some (translation_failed_text m.msg), by simp [translate_stage, hn, hc, ho]⟩
    · by_cases hs : s = ""
      · rcases ho : oracle calls m.msg with s2 | _
        · exact ⟨some s2, by simp [translate_stage, hn, hc, hs, ho]⟩
        · exact ⟨some (translation_failed_text m.msg),
            by simp [translate_stage, hn, hc, hs, ho]⟩
      · exact ⟨some s, by simp [translate_stage, hn, hc, hs]⟩

theorem stage_lines_length (oracle : Nat → String → TransOutcome) (tlabel : String) :
    ∀ (msgs : List MessageItem) (cache : List (String × String)) (calls : Nat),
      (stage_lines oracle tlabel msgs cache calls).length = msgs.length := by
  intro msgs
  induction msgs with
  | nil => intro cache calls; rfl
  | cons m rest ih => intro cache calls; simp [stage_lines, ih]

theorem stage_lines_getD_format (oracle : Nat → String → TransOutcome) (tlabel : String) :
    ∀ (msgs : List MessageItem) (cache : List (String × String)) (calls : Nat)
      (i : Nat) (h : i < msgs.length),
      ∃ tr, (stage_lines oracle tlabel msgs cache calls).getD i ""
          = format_message tlabel (msgs.get ⟨i, h⟩) tr := by
  intro msgs
  induction msgs with
  | nil => intro cache calls i h; exact absurd h (by simp)
  | cons m rest ih =>
    intro cache calls i h
    cases i with
    | zero =>
      obtain ⟨tr, htr⟩ := translate_stage_line oracle tlabel m cache calls
      exact ⟨tr, by simpa [stage_lines] using htr⟩
    | succ i =>
      obtain ⟨tr, htr⟩ := ih (translate_stage oracle tlabel m cache calls).2.1
        (translate_stage oracle tlabel m cache calls).2.2 i (by simpa using Nat.lt_of_succ_lt_succ h)
      exact ⟨tr, by simpa [stage_lines] using htr⟩

/-- When the pending map is empty and the arriving message carries exactly the
next sequence id, one loop iteration emits it immediately. -/
theorem process_one_in_order (oracle : Nat → String → TransOutcome) (tlabel : String)
    (st : PipeState) (m : MessageItem)
    (hp : st.pending_messages = []) (hm : m.sequence_id = st.next_sequence_id) :
    process_one oracle tlabel st m =
      { pending_messages := []
        next_sequence_id := st.next_sequence_id + 1
        translation_cache := (translate_stage oracle tlabel m st.translation_cache st.calls).2.1
        output_queue := st.output_queue
          ++ [(st.next_sequence_id, (translate_stage oracle tlabel m st.translation_cache st.calls).1)]
        calls := (translate_stage oracle tlabel m st.translation_cache st.calls).2.2 } := by
  unfold process_one
  rw [hp, hm]
  simp only [pending_remove, List.eraseP_nil, drain_single]

/-- Running the loop over messages whose sequence ids continue the counter in
order: everything is emitted immediately, in order, nothing stays pending. -/
theorem run_in_order (oracle : Nat → String → TransOutcome) (tlabel : String) :
    ∀ (msgs : List MessageItem) (st : PipeState),
      st.pending_messages = [] →
      (∀ i (h : i < msgs.length),
        (msgs.get ⟨i, h⟩).sequence_id = st.next_sequence_id + i) →
      (process_translation_queue oracle tlabel msgs st).pending_messages = [] ∧
      (process_translation_queue oracle tlabel msgs st).next_sequence_id
          = st.next_sequence_id + msgs.length ∧
      (process_translation_queue oracle tlabel msgs st).output_queue
          = st.output_queue ++ List.zip (List.range' st.next_sequence_id msgs.length)
              (stage_lines oracle tlabel msgs st.translation_cache st.calls) := by
  intro msgs
  induction msgs with
  | nil =>
    intro st hp _
    exact ⟨hp, rfl, by simp [process_translation_queue, stage_lines]⟩
  | cons m rest ih =>
    intro st hp hid
    have hm : m.sequence_id = st.next_sequence_id := by simpa using hid 0 (by simp)
    have hstep := process_one_in_order oracle tlabel st m hp hm
    have hfold : process_translation_queue oracle tlabel (m :: rest) st
        = process_translation_queue oracle tlabel rest (process_one oracle tlabel st m) := rfl
    have hid' : ∀ i (h : i < rest.length),
        (rest.get ⟨i, h⟩).sequence_id
          = (process_one oracle tlabel st m).next_sequence_id + i := by
      intro i h
      have hi := hid (i + 1) (by simpa using Nat.succ_lt_succ h)
      rw [hstep]
      simpa [Nat.add_assoc, Nat.add_comm 1 i] using hi
    obtain ⟨g1, g2, g3⟩ := ih (process_one oracle tlabel st m) (by rw [hstep]) hid'
    refine ⟨by rwa [hfold], ?_, ?_⟩
    · rw [hfold, g2, hstep]
      simp [Nat.add_assoc, Nat.add_comm 1 rest.length]
    · rw [hfold, g3, hstep]
      simp only [stage_lines, List.length_cons, List.range'_succ, List.zip_cons_cons,
        List.append_assoc, List.singleton_append]

theorem zip_getD (as : List Nat) (bs : List String) (i : Nat)
    (h1 : i < as.length) (h2 : i < bs.length) :
    (List.zip as bs).getD i (0, "") = (as.getD i 0, bs.getD i "") := by
  rw [List.getD_eq_getElem _ _ (by rw [List.length_zip]; omega)]
  rw [List.getElem_zip]
  rw [List.getD_eq_getElem _ _ h1, List.getD_eq_getElem _ _ h2]

theorem range_zero_getD (n i : Nat) (h : i < n) :
    (List.range' 0 n).getD i 0 = i := by
  rw [List.getD_eq_getElem _ _ (by rw [List.length_range']; exact h)]
  rw [List.getElem_range']
  omega

/-- C1: for inbound messages carrying sequence ids 0..n-1 in arrival order,
whatever the translation outcomes, the output queue receives exactly one
formatted line per message, tagged with strictly increasing sequence ids 0..n-1
(no gaps, no duplicates); `next_sequence_id` starts at 0 and ends equal to the
number of emissions. -/
theorem C1_ordered_emission (oracle : Nat → String → TransOutcome) (tlabel : String)
    (msgs : List MessageItem)
    (hids : ∀ i (h : i < msgs.length), (msgs.get ⟨i, h⟩).sequence_id = i) :
    (process_translation_queue oracle tlabel msgs init_state).output_queue.map Prod.fst
        = List.range msgs.length ∧
    (process_translation_queue oracle tlabel msgs init_state).output_queue.length
        = msgs.length ∧
    (∀ i (h : i < msgs.length), ∃ tr,
        (process_translation_queue oracle tlabel msgs init_state).output_queue.getD i (0, "")
          = (i, format_message tlabel (msgs.get ⟨i, h⟩) tr)) ∧
    init_state.next_sequence_id = 0 ∧
    (process_translation_queue oracle tlabel msgs init_state).next_sequence_id
        = (process_translation_queue oracle tlabel msgs init_state).output_queue.length := by
  obtain ⟨g1, g2, g3⟩ := run_in_order oracle tlabel msgs init_state rfl
    (by simpa [init_state] using hids)
  have hsl := stage_lines_length oracle tlabel msgs init_state.translation_cache init_state.calls
  have hout : (process_translation_queue oracle tlabel msgs init_state).output_queue
      = List.zip (List.range' 0 msgs.length)
          (stage_lines oracle tlabel msgs init_state.translation_cache init_state.calls) := by
    simpa using g3
  have hlen : (process_translation_queue oracle tlabel msgs init_state).output_queue.length
      = msgs.length := by
    rw [hout, List.length_zip, hsl, List.length_range']
    exact Nat.min_self _
  refine ⟨?_, hlen, ?_, rfl, by rw [hlen]; simpa [init_state] using g2⟩
  · rw [hout, List.map_fst_zip _ _ (by rw [hsl, List.length_range'])]
    rw [List.range_eq_range']
  · intro i h
    obtain ⟨tr, htr⟩ := stage_lines_getD_format oracle tlabel msgs
      init_state.translation_cache init_state.calls i h
    refine ⟨tr, ?_⟩
    rw [hout, zip_getD _ _ i (by rw [List.length_range']; exact h) (by rw [hsl]; exact h)]
    rw [range_zero_getD _ _ h, htr]

/-- Witness for C1 at the spec's scenario: "A" (no translation), "B"
(translated), "C" (no translation), arriving with ids 0, 1, 2. -/
theorem C1_ordered_emission_witness :
    (process_translation_queue (fun _ s => TransOutcome.ok (s ++ "!")) "[TL]"
        [⟨"A", "[ OTHERS ]", "x", 0, false⟩, ⟨"B", "[ OTHERS ]", "y", 1, true⟩,
          ⟨"C", "[ OTHERS ]", "z", 2, false⟩] init_state).output_queue.map Prod.fst
        = List.range 3 ∧
    (process_translation_queue (fun _ s => TransOutcome.ok (s ++ "!")) "[TL]"
        [⟨"A", "[ OTHERS ]", "x", 0, false⟩, ⟨"B", "[ OTHERS ]", "y", 1, true⟩,
          ⟨"C", "[ OTHERS ]", "z", 2, false⟩] init_state).output_queue.length = 3 ∧
    (∀ i (h : i < ([⟨"A", "[ OTHERS ]", "x", 0, false⟩, ⟨"B", "[ OTHERS ]", "y", 1, true⟩,
          ⟨"C", "[ OTHERS ]", "z", 2, false⟩] : List MessageItem).length), ∃ tr,
        (process_translation_queue (fun _ s => TransOutcome.ok (s ++ "!")) "[TL]"
          [⟨"A", "[ OTHERS ]", "x", 0, false⟩, ⟨"B", "[ OTHERS ]", "y", 1, true⟩,
            ⟨"C", "[ OTHERS ]", "z", 2, false⟩] init_state).output_queue.getD i (0, "")
          = (i, format_message "[TL]"
              (([⟨"A", "[ OTHERS ]", "x", 0, false⟩, ⟨"B", "[ OTHERS ]", "y", 1, true⟩,
                ⟨"C", "[ OTHERS ]", "z", 2, false⟩] : List MessageItem).get ⟨i, h⟩) tr)) ∧
    init_state.next_sequence_id = 0 ∧
    (process_translation_queue (fun _ s => TransOutcome.ok (s ++ "!")) "[TL]"
        [⟨"A", "[ OTHERS ]", "x", 0, false⟩, ⟨"B", "[ OTHERS ]", "y", 1, true⟩,
          ⟨"C", "[ OTHERS ]", "z", 2, false⟩] init_state).next_sequence_id
        = (process_translation_queue (fun _ s => TransOutcome.ok (s ++ "!")) "[TL]"
            [⟨"A", "[ OTHERS ]", "x", 0, false⟩, ⟨"B", "[ OTHERS ]", "y", 1, true⟩,
              ⟨"C", "[ OTHERS ]", "z", 2, false⟩] init_state).output_queue.length := by
  have h := C1_ordered_emission (fun _ s => TransOutcome.ok (s ++ "!")) "[TL]"
    [⟨"A", "[ OTHERS ]", "x", 0, false⟩, ⟨"B", "[ OTHERS ]", "y", 1, true⟩,
      ⟨"C", "[ OTHERS ]", "z", 2, false⟩] (by decide)
  exact h

/-! ## Failed translations degrade to a placeholder but are still emitted -/

theorem cache_get_mem {cache : List (String × String)} {t s : String}
    (h : cache_get cache t = some s) : (t, s) ∈ cache := by
  unfold cache_get at h
  rcases Option.map_eq_some'.1 h with ⟨e, he, he2⟩
  have hmem := List.mem_of_find?_eq_some he
  have hpred := List.find?_some he
  have h1 : e.1 = t := by simpa using hpred
  have h3 : e = (t, s) := by
    cases e
    simp_all
  rwa [h3] at hmem

theorem cache_put_sound {oracleD : String → TransOutcome} {cache : List (String × String)}
    {k v : String} (h : ∀ e ∈ cache, oracleD e.1 = TransOutcome.ok e.2)
    (hk : oracleD k = TransOutcome.ok v) :
    ∀ e ∈ cache_put cache k v, oracleD e.1 = TransOutcome.ok e.2 := by
  intro e he
  rcases List.mem_cons.1 he with rfl | he2
  · simpa using hk
  · exact h e ((List.eraseP_sublist _).subset he2)

/-- With a (per-text deterministic) translator, every cache entry records a
successful translator result — the loop writes the cache only on success or on
a truthy re-store of an entry that was itself written on success. -/
theorem translate_stage_preserves_sound (oracleD : String → TransOutcome) (tlabel : String)
    (m : MessageItem) (cache : List (String × String)) (calls : Nat)
    (h : ∀ e ∈ cache, oracleD e.1 = TransOutcome.ok e.2) :
    ∀ e ∈ (translate_stage (fun _ => oracleD) tlabel m cache calls).2.1,
      oracleD e.1 = TransOutcome.ok e.2 := by
  rcases hn : m.needs_translation with _ | _
  · simpa [translate_stage, hn] using h
  · rcases hc : cache_get cache m.msg with _ | s
    · rcases ho : oracleD m.msg with s2 | _
      · rw [translate_stage_miss_ok (fun _ => oracleD) tlabel m cache calls s2 hn hc ho]
        exact cache_put_sound h ho
      · rw [translate_stage_miss_failed (fun _ => oracleD) tlabel m cache calls hn hc ho]
        exact h
    · by_cases hs : s = ""
      · subst hs
        rcases ho : oracleD m.msg with s2 | _
        · intro e he
          simp only [translate_stage, hn, hc, ho, if_pos, if_true] at he
          exact cache_put_sound h ho e (by simpa using he)
        · intro e he
          simp only [translate_stage, hn, hc, ho, if_pos, if_true] at he
          exact h e (by simpa using he)
      · rw [translate_stage_hit (fun _ => oracleD) tlabel m cache calls s hn hc hs]
        have hks : oracleD m.msg = TransOutcome.ok s := by
          simpa using h (m.msg, s) (cache_get_mem hc)
        exact cache_put_sound h hks

/-- The line computed for a message whose translator call fails (exception or
timeout) is the placeholder-formatted line. -/
theorem stage_lines_getD_failed (oracleD : String → TransOutcome) (tlabel : String) :
    ∀ (msgs : List MessageItem) (cache : List (String × String)) (calls : Nat)
      (k : Nat) (hk : k < msgs.length),
      (∀ e ∈ cache, oracleD e.1 = TransOutcome.ok e.2) →
      (msgs.get ⟨k, hk⟩).needs_translation = true →
      oracleD (msgs.get ⟨k, hk⟩).msg = TransOutcome.failed →
      (stage_lines (fun _ => oracleD) tlabel msgs cache calls).getD k ""
        = format_message tlabel (msgs.get ⟨k, hk⟩)
            (some (translation_failed_text (msgs.get ⟨k, hk⟩).msg)) := by
  intro msgs
  induction msgs with
  | nil => intro cache calls k hk; exact absurd hk (by simp)
  | cons m rest ih =>
    intro cache calls k hk hsound hneeds hfail
    cases k with
    | zero =>
      have hfail0 : oracleD m.msg = TransOutcome.failed := hfail
      have hneeds0 : m.needs_translation = true := hneeds
      have hc : cache_get cache m.msg = none := by
        cases hcg : cache_get cache m.msg with
        | none => rfl
        | some s =>
          have hok : oracleD m.msg = TransOutcome.ok s := by
            simpa using hsound (m.msg, s) (cache_get_mem hcg)
          rw [hok] at hfail0
          cases hfail0
      have hst := translate_stage_miss_failed (fun _ => oracleD) tlabel m cache calls
        hneeds0 hc hfail0
      simp [stage_lines, hst]
    | succ k =>
      have hsound' := translate_stage_preserves_sound oracleD tlabel m cache calls hsound
      have hk' : k < rest.length := by simpa using Nat.lt_of_succ_lt_succ hk
      have := ih (translate_stage (fun _ => oracleD) tlabel m cache calls).2.1
        (translate_stage (fun _ => oracleD) tlabel m cache calls).2.2 k hk'
        hsound' (by simpa using hneeds) (by simpa using hfail)
      simpa [stage_lines] using this

/-- C3: a message whose translation raises or times out is never dropped — its
line is emitted at its own sequence position, built from the locally generated
placeholder that embeds the original text — and all other messages are still
emitted, in order, with the counter fully advanced. -/
theorem C3_failed_translation_still_emitted (oracleD : String → TransOutcome) (tlabel : String)
    (msgs : List MessageItem) (k : Nat) (hk : k < msgs.length)
    (hids : ∀ i (h : i < msgs.length), (msgs.get ⟨i, h⟩).sequence_id = i)
    (hneeds : (msgs.get ⟨k, hk⟩).needs_translation = true)
    (hfail : oracleD (msgs.get ⟨k, hk⟩).msg = TransOutcome.failed) :
    (process_translation_queue (fun _ => oracleD) tlabel msgs init_state).output_queue.length
        = msgs.length ∧
    (process_translation_queue (fun _ => oracleD) tlabel msgs init_state).output_queue.getD k
        (0, "")
      = (k, format_message tlabel (msgs.get ⟨k, hk⟩)
          (some (translation_failed_text (msgs.get ⟨k, hk⟩).msg))) ∧
    (∃ l r, translation_failed_text (msgs.get ⟨k, hk⟩).msg
        = l ++ (msgs.get ⟨k, hk⟩).msg ++ r) ∧
    (process_translation_queue (fun _ => oracleD) tlabel msgs init_state).next_sequence_id
        = msgs.length := by
  obtain ⟨g1, g2, g3⟩ := run_in_order (fun _ => oracleD) tlabel msgs init_state rfl
    (by simpa [init_state] using hids)
  have hsl := stage_lines_length (fun _ => oracleD) tlabel msgs
    init_state.translation_cache init_state.calls
  have hout : (process_translation_queue (fun _ => oracleD) tlabel msgs init_state).output_queue
      = List.zip (List.range' 0 msgs.length)
          (stage_lines (fun _ => oracleD) tlabel msgs init_state.translation_cache
            init_state.calls) := by
    simpa using g3
  have hlen : (process_translation_queue (fun _ => oracleD) tlabel msgs
      init_state).output_queue.length = msgs.length := by
    rw [hout, List.length_zip, hsl, List.length_range']
    exact Nat.min_self _
  refine ⟨hlen, ?_, ⟨"translation failed for ", "", ?_⟩, by simpa [init_state] using g2⟩
  · have hline := stage_lines_getD_failed oracleD tlabel msgs init_state.translation_cache
      init_state.calls k hk (by intro e he; cases he) hneeds hfail
    rw [hout, zip_getD _ _ k (by rw [List.length_range']; exact hk) (by rw [hsl]; exact hk)]
    rw [range_zero_getD _ _ hk, hline]
  · show translation_failed_text (msgs.get ⟨k, hk⟩).msg
      = "translation failed for " ++ (msgs.get ⟨k, hk⟩).msg ++ ""
    simp [translation_failed_text]

/-- Witness for C3: "B" needs translation, the translator fails on it, yet all
three lines are emitted in order with "B" carrying the placeholder. -/
theorem C3_failed_translation_witness :
    (process_translation_queue (fun _ => fun _ => TransOutcome.failed) "[TL]"
        [⟨"A", "[ OTHERS ]", "x", 0, false⟩, ⟨"B", "[ OTHERS ]", "y", 1, true⟩,
          ⟨"C", "[ OTHERS ]", "z", 2, false⟩] init_state).output_queue.length = 3 ∧
    (process_translation_queue (fun _ => fun _ => TransOutcome.failed) "[TL]"
        [⟨"A", "[ OTHERS ]", "x", 0, false⟩, ⟨"B", "[ OTHERS ]", "y", 1, true⟩,
          ⟨"C", "[ OTHERS ]", "z", 2, false⟩] init_state).output_queue.getD 1 (0, "")
      = (1, format_message "[TL]"
          (([⟨"A", "[ OTHERS ]", "x", 0, false⟩, ⟨"B", "[ OTHERS ]", "y", 1, true⟩,
            ⟨"C", "[ OTHERS ]", "z", 2, false⟩] : List MessageItem).get ⟨1, by decide⟩)
          (some (translation_failed_text
            (([⟨"A", "[ OTHERS ]", "x", 0, false⟩, ⟨"B", "[ OTHERS ]", "y", 1, true⟩,
              ⟨"C", "[ OTHERS ]", "z", 2, false⟩] : List MessageItem).get
                ⟨1, by decide⟩).msg))) ∧
    (∃ l r, translation_failed_text
        (([⟨"A", "[ OTHERS ]", "x", 0, false⟩, ⟨"B", "[ OTHERS ]", "y", 1, true⟩,
          ⟨"C", "[ OTHERS ]", "z", 2, false⟩] : List MessageItem).get ⟨1, by decide⟩).msg
        = l ++ (([⟨"A", "[ OTHERS ]", "x", 0, false⟩, ⟨"B", "[ OTHERS ]", "y", 1, true⟩,
            ⟨"C", "[ OTHERS ]", "z", 2, false⟩] : List MessageItem).get ⟨1, by decide⟩).msg
          ++ r) ∧
    (process_translation_queue (fun _ => fun _ => TransOutcome.failed) "[TL]"
        [⟨"A", "[ OTHERS ]", "x", 0, false⟩, ⟨"B", "[ OTHERS ]", "y", 1, true⟩,
          ⟨"C", "[ OTHERS ]", "z", 2, false⟩] init_state).next_sequence_id = 3 :=
  C3_failed_translation_still_emitted (fun _ => TransOutcome.failed) "[TL]"
    [⟨"A", "[ OTHERS ]", "x", 0, false⟩, ⟨"B", "[ OTHERS ]", "y", 1, true⟩,
      ⟨"C", "[ OTHERS ]", "z", 2, false⟩] 1 (by decide) (by decide) (by decide) rfl

end YARTAT
